import Mathlib

/-!
# Shallow embedding of the KiSAX one-header SAX parser (`kisax.h`)

The C++ source is a 26-state table-driven scanner (`KiSAX::Parser`).  We embed
it as pure Lean functions:

* `Sym` / `getSymbolType` mirror the `Symbol` enum and the character classifier;
* `statesList` is the flat 26 x 14 transition array `_states` (row-major,
  `MAXTOKEN = 14`), and `transKiSAX` is the lookup
  `m_states[m_state*MAXTOKEN + sym]`;
* `Ctx` is the mutable parser context (`m_state`, buffers, flags);
* `runRule` is the `_rules` action table: entry `n` is the body of the member
  function installed at index `n`, acting on the context and possibly emitting
  events or throwing;
* `parseLoop` is the `while (m_is->get(c) && !m_stop_flag)` driver loop, and
  `parseKiSAX` is `Parser::parse()` for a bound stream (the stream is modelled
  as the `List Char` of its remaining characters).

The event sink (the virtual handler methods of a derived class) is modelled by
a predicate `stopOn : Event → Bool` telling, for each delivered event, whether
the handler invokes `stop()` during that callback; `stop()` only sets
`m_stop_flag`, so this captures every parser-visible behaviour of a sink.

Exceptions are modelled by an `Option Err` result; events delivered before a
throw are still reported, and the returned context is the context at the moment
of the throw.
-/

namespace KiSAX

/-- The `Symbol` enum of `kisax.h` (14 character classes, `MAXTOKEN = 14`). -/
inductive Sym
  | TAG_BEGIN | QUESTION | DELIMITER | EQUAL | QUOTE | SLASH | EXCLAMATION
  | MINUS | UNDERLINE | DIGIT | ALPHA | COLON | TAG_END | ANOTHER
  deriving DecidableEq

/-- Numeric value of each `Symbol` enumerator (declaration order, 0-based). -/
def symIdx : Sym → Nat
  | .TAG_BEGIN => 0
  | .QUESTION => 1
  | .DELIMITER => 2
  | .EQUAL => 3
  | .QUOTE => 4
  | .SLASH => 5
  | .EXCLAMATION => 6
  | .MINUS => 7
  | .UNDERLINE => 8
  | .DIGIT => 9
  | .ALPHA => 10
  | .COLON => 11
  | .TAG_END => 12
  | .ANOTHER => 13

/-- `Parser::getSymbolType`: `std::isalpha` / `std::isdigit` first (ASCII
letters and digits), then the exact-character `switch`, with `ANOTHER` as the
catch-all. -/
def getSymbolType (c : Char) : Sym :=
  if c.isAlpha then .ALPHA
  else if c.isDigit then .DIGIT
  else if c = ' ' ∨ c = '\n' ∨ c = '\t' then .DELIMITER
  else if c = '<' then .TAG_BEGIN
  else if c = '>' then .TAG_END
  else if c = '?' then .QUESTION
  else if c = '=' then .EQUAL
  else if c = '\"' then .QUOTE
  else if c = '/' then .SLASH
  else if c = '!' then .EXCLAMATION
  else if c = '-' then .MINUS
  else if c = '_' then .UNDERLINE
  else if c = ':' then .COLON
  else .ANOTHER

/-- The five error codes of `KiSAX::Exception::ErrorCodes`. -/
inductive Err
  | CloseStyleTag | ClosingTagWithNoBody | ClosingTagWithAttributes
  | BadStream | Parsing
  deriving DecidableEq

/-- The events delivered to the sink: one constructor per virtual handler
method of `KiSAX::Parser`.  Attribute collections (`stringmap`) are carried as
key-sorted association lists, matching `std::map` iteration order. -/
inductive Event
  | documentStart
  | documentEnd
  | elementStart (tagname : String) (attributes : List (String × String))
  | elementEnd (tagname : String)
  | textHandle (rawtext : String)
  | definitionHandle (definition : String) (attributes : List (String × String))
  | commentHandle (comment : String)
  deriving DecidableEq

set_option maxHeartbeats 2000000 in
/-- The flat `_states` transition array from `Parser::init`, verbatim:
26 rows (states) x 14 columns (symbols), `-1` meaning "no legal transition". -/
def statesList : List Int := [
   --0,  1,  2,  3,  4,  5,  6,  7,  8,  9, 10, 11, 12, 13
     1, -1,  0, -1, -1, -1, -1, -1, -1, -1, -1, -1, -1, -1, -- 0 initial state
    -1, 17, -1, -1, -1, -1, -1, -1, -1, -1, -1, -1, -1, -1, -- 1 first <, ? is waiting
    -1, 17, -1, -1, -1,  9, 18, -1,  3,  3,  3, -1, -1, -1, -- 2 start of tag
    -1,  4,  5, -1, -1,  7, -1,  3,  3,  3,  3,  3,  6, -1, -- 3 reading tag name
    -1, -1, -1, -1, -1, -1, -1, -1, -1, -1, -1, -1,  6, -1, -- 4 definition being closed
    -1,  4, -1, -1, -1,  7, -1, -1, -1, -1, 11, -1,  6, -1, -- 5 name ended, attrs or end
    -1, -1, -1, -1, -1, -1, -1, -1, -1, -1, -1, -1, -1, -1, -- 6 fictive, end of tag
    -1, -1, -1, -1, -1, -1, -1, -1, -1, -1, -1, -1,  6, -1, -- 7 end of tag w/o body
     2, 10,  8, 10, 10, 10, 10, 10, 10, 10, 10, 10, 10, 10, -- 8 searching tag or text
    -1, -1,  0, -1, -1, -1, -1, -1,  3,  3,  3, -1, -1, -1, -- 9 reading closing tag name
    16, 10, 10, 10, 10, 10, 10, 10, 10, 10, 10, 10, 10, 10, --10 read text
    -1, -1, -1, 12, -1, -1, -1, 11, 11, 11, 11, -1, -1, -1, --11 read attribute name
    -1, -1, -1, -1, 14, -1, -1, -1, -1, -1, -1, -1, -1, -1, --12 name given, quote waiting
    13, 13, 13, 13, 15, 13, 13, 13, 13, 13, 13, 13, 13, 13, --13 get attribute value
    13, 13, 13, 13, 15, 13, 13, 13, 13, 13, 13, 13, 13, 13, --14 skip quote
    -1,  4,  5, -1, -1,  7, -1, -1, -1, -1, -1, -1,  6, -1, --15 store attributes
    -1, -1, -1, -1, -1, -1, -1, -1, -1, -1, -1, -1, -1, -1, --16 fictive, text event
    -1, -1, -1, -1, -1, -1, -1, -1,  3,  3,  3, -1, -1, -1, --17 definition tag opened
    -1, -1, -1, -1, -1, -1, -1, 19, -1, -1, -1, -1, -1, -1, --18 "<!" seen
    -1, -1, -1, -1, -1, -1, -1, 20, -1, -1, -1, -1, -1, -1, --19 "<!-" seen
    21, 21, 21, 21, 21, 21, 21, 22, 21, 21, 21, 21, 21, 21, --20 "<!--" seen
    21, 21, 21, 21, 21, 21, 21, 22, 21, 21, 21, 21, 21, 21, --21 read commentary
    24, 24, 24, 24, 24, 24, 24, 23, 24, 24, 24, 24, 24, 24, --22 maybe end of commentary
    -1, -1, -1, -1, -1, -1, -1, -1, -1, -1, -1, -1, 25, -1, --23 "--" seen, only > legal
    -1, -1, -1, -1, -1, -1, -1, -1, -1, -1, -1, -1, -1, -1, --24 fictive, minus in comment
    -1, -1, -1, -1, -1, -1, -1, -1, -1, -1, -1, -1, -1, -1] --25 fictive, comment event

/-- `m_states[m_state*MAXTOKEN + getSymbolType(c)]`.  A negative `m_state`
never reaches this lookup in the C++ driver (the loop throws first), so we
return the error sentinel there; indices past the table yield the sentinel as
well. -/
def transKiSAX (s : Int) (sym : Sym) : Int :=
  if s < 0 then -1 else statesList.getD (s.toNat * 14 + symIdx sym) (-1)

/-- Insertion into `std::map<std::string,std::string>` via `insert`:
keeps keys strictly sorted and does NOT overwrite an existing key
(first-write-wins), exactly like `m_attributes.insert(make_pair(..))`. -/
def mapInsert (m : List (String × String)) (k v : String) : List (String × String) :=
  match m with
  | [] => [(k, v)]
  | (k', v') :: rest =>
    if k < k' then (k, v) :: (k', v') :: rest
    else if k = k' then (k', v') :: rest
    else (k', v') :: mapInsert rest k v

/-- Lookup in the attribute collection (`std::map` find, on the association
list representation). -/
def lookupA (m : List (String × String)) (k : String) : Option String :=
  match m with
  | [] => none
  | (k', v') :: rest => if k' = k then some v' else lookupA rest k

/-- The mutable per-instance data of `KiSAX::Parser` (everything except the
bound stream, which the driver functions take separately). -/
structure Ctx where
  state : Int
  text : String
  tag : String
  attributes : List (String × String)
  attribute_first : String
  attribute_second : String
  comment : String
  is_style : Bool
  is_closing_tag : Bool
  is_tag_no_body : Bool
  stop_flag : Bool
  deriving DecidableEq

/-- `Parser::do_all_clear`: clears the three tag flags, the text/tag buffers,
the attribute collection and the two attribute buffers.  Note that the
`m_comment` buffer is NOT touched by the C++ function. -/
def do_all_clear (ctx : Ctx) : Ctx :=
  { ctx with
    is_closing_tag := false
    is_style := false
    is_tag_no_body := false
    text := ""
    tag := ""
    attributes := []
    attribute_first := ""
    attribute_second := "" }

/-- `Parser::reset`: `m_state = 0`, the four flags to `false`, then
`do_all_clear()`.  The bound stream is untouched (it is outside `Ctx`). -/
def reset (ctx : Ctx) : Ctx :=
  do_all_clear
    { ctx with
      state := 0
      is_style := false
      is_closing_tag := false
      is_tag_no_body := false
      stop_flag := false }

/-- The context of a freshly constructed parser (`Parser()` runs `init()`,
which ends in `reset()`). -/
def initCtx : Ctx :=
  { state := 0, text := "", tag := "", attributes := [], attribute_first := ""
    attribute_second := "", comment := "", is_style := false
    is_closing_tag := false, is_tag_no_body := false, stop_flag := false }

/-- `Parser::do_tag_end` (action of state 6): choose the event by the flags
(style ⟶ `definitionHandle`; closing ⟶ `elementEnd`, but
`ClosingTagWithAttributes` if the attribute collection is non-empty; otherwise
`elementStart`), then a second `elementEnd` if the no-body flag is set, then
`do_all_clear()` and `m_state = 8`. -/
def do_tag_end (ctx : Ctx) : List Event × Ctx × Option Err :=
  let second := if ctx.is_tag_no_body then [Event.elementEnd ctx.tag] else []
  if ctx.is_style then
    ([Event.definitionHandle ctx.tag ctx.attributes] ++ second,
     { do_all_clear ctx with state := 8 }, none)
  else if ctx.is_closing_tag then
    if ctx.attributes.isEmpty then
      ([Event.elementEnd ctx.tag] ++ second, { do_all_clear ctx with state := 8 }, none)
    else
      ([], ctx, some Err.ClosingTagWithAttributes)
  else
    ([Event.elementStart ctx.tag ctx.attributes] ++ second,
     { do_all_clear ctx with state := 8 }, none)

/-- The `_rules` action table of `Parser::init`: entry `n` is the body of the
member function installed at index `n` (indices whose rule is `do_nothing`
fall into the default branch).  `c` is `m_current_char`.  Result: events
emitted during the action, the updated context, and the exception thrown (if
any). -/
def runRule (n : Nat) (c : Char) (ctx : Ctx) : List Event × Ctx × Option Err :=
  match n with
  | 3 => ([], { ctx with tag := ctx.tag.push c }, none)                -- do_tag_pushback
  | 4 => if ctx.is_style then ([], ctx, none)                          -- do_is_style_on
         else ([], ctx, some Err.CloseStyleTag)
  | 6 => do_tag_end ctx                                                -- do_tag_end
  | 7 => if ctx.is_style then ([], ctx, some Err.CloseStyleTag)        -- do_tag_wobody_close
         else if ctx.is_closing_tag then ([], ctx, some Err.ClosingTagWithNoBody)
         else ([], { ctx with is_tag_no_body := true }, none)
  | 9 => if ctx.is_style then ([], ctx, some Err.CloseStyleTag)        -- do_tag_is_closing
         else ([], { ctx with is_closing_tag := true }, none)
  | 10 => ([], { ctx with text := ctx.text.push c }, none)             -- do_text_pushback
  | 11 => ([], { ctx with attribute_first := ctx.attribute_first.push c }, none)
  | 13 => ([], { ctx with attribute_second := ctx.attribute_second.push c }, none)
  | 15 => ([], { ctx with                                              -- do_attribute_store
            attributes := mapInsert ctx.attributes ctx.attribute_first ctx.attribute_second
            attribute_first := ""
            attribute_second := "" }, none)
  | 16 => ([Event.textHandle ctx.text],                                -- do_text_end
           { ctx with text := "", state := 2 }, none)
  | 17 => ([], { ctx with is_style := true }, none)                    -- do_style_on
  | 21 => ([], { ctx with comment := ctx.comment.push c }, none)       -- do_commentary_pushback
  | 24 => ([], { ctx with comment := ctx.comment.push '-', state := 21 }, none)
  | 25 => ([Event.commentHandle ctx.comment],                          -- do_commentary_end
           { ctx with comment := "", state := 8 }, none)
  | _ => ([], ctx, none)                                               -- do_nothing

/-- Result of a scan: events delivered (in order), final context, unread rest
of the stream, and the exception thrown (if any). -/
structure PResult where
  events : List Event
  ctx : Ctx
  rest : List Char
  err : Option Err
  deriving DecidableEq

/-- The driver loop of `Parser::parse`:
`while (m_is->get(m_current_char) && !m_stop_flag) { ... }`.
Note the C++ evaluation order: `get` consumes a character BEFORE the stop flag
is tested, so a set stop flag still discards one character.  After the
transition, a negative state throws `Parsing`; otherwise the rule of the newly
entered state runs, and the stop flag absorbs any `stop()` calls made by the
sink during the delivered events. -/
def parseLoop (stopOn : Event → Bool) : Ctx → List Char → PResult
  | ctx, [] => ⟨[], ctx, [], none⟩
  | ctx, c :: rest =>
    if ctx.stop_flag then ⟨[], ctx, rest, none⟩
    else
      let next := transKiSAX ctx.state (getSymbolType c)
      if next < 0 then ⟨[], { ctx with state := next }, rest, some Err.Parsing⟩
      else
        match runRule next.toNat c { ctx with state := next } with
        | (evs, ctx1, some e) =>
          ⟨evs, { ctx1 with stop_flag := ctx1.stop_flag || evs.any stopOn }, rest, some e⟩
        | (evs, ctx1, none) =>
          let r := parseLoop stopOn { ctx1 with stop_flag := ctx1.stop_flag || evs.any stopOn } rest
          ⟨evs ++ r.events, r.ctx, r.rest, r.err⟩

/-- `Parser::parse` for a bound stream.  `documentStart` is delivered unless
the stop flag is still set from a previous `parse`; the flag is then cleared
(so a `stop()` made inside the `documentStart` callback has no effect), the
loop runs, and — since a `List Char` stream always signals a clean
end-of-input — the `BadStream` path is unreachable and `documentEnd` is
delivered whenever no exception was thrown. -/
def parseKiSAX (stopOn : Event → Bool) (ctx : Ctx) (input : List Char) : PResult :=
  let startEvs := if ctx.stop_flag then ([] : List Event) else [Event.documentStart]
  let r := parseLoop stopOn { ctx with stop_flag := false } input
  match r.err with
  | some e => ⟨startEvs ++ r.events, r.ctx, r.rest, some e⟩
  | none =>
    ⟨startEvs ++ r.events ++ [Event.documentEnd],
     { r.ctx with stop_flag := r.ctx.stop_flag || stopOn Event.documentEnd }, r.rest, none⟩

/-- A sink that never calls `stop()`. -/
def stopNone : Event → Bool := fun _ => false

/-- A sink that calls `stop()` from inside its `definitionHandle` callback. -/
def stopOnDefinition : Event → Bool
  | Event.definitionHandle _ _ => true
  | _ => false

/-- Context just before the final `>` of a self-closing tag `<b/`: tag name
read, no-body flag set by `do_tag_wobody_close`. -/
def c3ctx : Ctx := { initCtx with tag := "b", is_tag_no_body := true }

/-- Context just before the final `>` of a closing tag that carries an
attribute (`</a a="1"` scanned: state 15 after `do_attribute_store`). -/
def c4ctx : Ctx :=
  { initCtx with state := 15, is_closing_tag := true, attributes := [("a", "1")] }

/-- Context mid-tag with attribute `x="1"` already stored and a duplicate
`x="2"` pair sitting in the attribute buffers, about to be stored. -/
def c5ctx : Ctx :=
  { initCtx with attributes := [("x", "1")], attribute_first := "x"
                 attribute_second := "2" }

/-- Context inside a comment body (state 21). -/
def c6ctx : Ctx := { initCtx with state := 21 }

/-- The parser context left behind by scanning `<?d?><!--ab` to end-of-input:
state 21 (inside a comment), comment buffer `"ab"`. -/
def c8ctx : Ctx := (parseKiSAX stopNone initCtx "<?d?><!--ab".toList).ctx

/-! ## Facts about the transition table -/

set_option maxRecDepth 4000 in
lemma statesList_length : statesList.length = 364 := by decide

set_option maxRecDepth 4000 in
lemma statesList_lt : ∀ i : Fin 364, statesList.getD i.val (-1) < 26 := by decide

set_option maxRecDepth 4000 in
lemma statesList_16 : ∀ i : Fin 364, statesList.getD i.val (-1) = 16 → i.val = 140 := by
  decide

lemma symIdx_lt (sym : Sym) : symIdx sym < 14 := by cases sym <;> decide

/-- Every entry of the transition table is a state index below 26 (or the
error sentinel `-1`). -/
lemma trans_lt (s : Int) (sym : Sym) : transKiSAX s sym < 26 := by
  unfold transKiSAX
  split
  · decide
  · rcases Nat.lt_or_ge (s.toNat * 14 + symIdx sym) 364 with h | h
    · exact statesList_lt ⟨_, h⟩
    · rw [List.getD_eq_default]
      · decide
      · rw [statesList_length]; exact h

/-- The fictive text-flush state 16 is only reachable from the text-reading
state 10 (table entry 140 = 10*14 + TAG_BEGIN is the unique 16). -/
lemma trans_eq_16 (s : Int) (sym : Sym) (h : transKiSAX s sym = 16) : s = 10 := by
  unfold transKiSAX at h
  split at h
  · exact absurd h (by decide)
  · rename_i hs
    rcases Nat.lt_or_ge (s.toNat * 14 + symIdx sym) 364 with hlt | hge
    · have h140 := statesList_16 ⟨_, hlt⟩ h
      simp only at h140
      have hsym := symIdx_lt sym
      have hts : s.toNat = 10 := by omega
      omega
    · rw [List.getD_eq_default] at h
      · exact absurd h (by decide)
      · rw [statesList_length]; exact hge

set_option maxHeartbeats 2000000 in
/-- Row 23 of the table (`"--"` seen inside a comment): every symbol other
than `>` has no legal transition. -/
lemma trans_row23 (sym : Sym) (h : sym ≠ Sym.TAG_END) : transKiSAX 23 sym = -1 := by
  revert h
  cases sym <;> decide

/-- Only the character `>` classifies as `TAG_END`. -/
lemma getSymbolType_eq_TAG_END (c : Char) (h : getSymbolType c = Sym.TAG_END) :
    c = '>' := by
  unfold getSymbolType at h
  by_cases h1 : c.isAlpha = true
  · rw [if_pos h1] at h; exact Sym.noConfusion h
  rw [if_neg h1] at h
  by_cases h2 : c.isDigit = true
  · rw [if_pos h2] at h; exact Sym.noConfusion h
  rw [if_neg h2] at h
  by_cases h3 : c = ' ' ∨ c = '\n' ∨ c = '\t'
  · rw [if_pos h3] at h; exact Sym.noConfusion h
  rw [if_neg h3] at h
  by_cases h4 : c = '<'
  · rw [if_pos h4] at h; exact Sym.noConfusion h
  rw [if_neg h4] at h
  by_cases h5 : c = '>'
  · exact h5
  rw [if_neg h5] at h
  by_cases h6 : c = '?'
  · rw [if_pos h6] at h; exact Sym.noConfusion h
  rw [if_neg h6] at h
  by_cases h7 : c = '='
  · rw [if_pos h7] at h; exact Sym.noConfusion h
  rw [if_neg h7] at h
  by_cases h8 : c = '\"'
  · rw [if_pos h8] at h; exact Sym.noConfusion h
  rw [if_neg h8] at h
  by_cases h9 : c = '/'
  · rw [if_pos h9] at h; exact Sym.noConfusion h
  rw [if_neg h9] at h
  by_cases h10 : c = '!'
  · rw [if_pos h10] at h; exact Sym.noConfusion h
  rw [if_neg h10] at h
  by_cases h11 : c = '-'
  · rw [if_pos h11] at h; exact Sym.noConfusion h
  rw [if_neg h11] at h
  by_cases h12 : c = '_'
  · rw [if_pos h12] at h; exact Sym.noConfusion h
  rw [if_neg h12] at h
  by_cases h13 : c = ':'
  · rw [if_pos h13] at h; exact Sym.noConfusion h
  rw [if_neg h13] at h
  exact Sym.noConfusion h

/-! ## Facts about the action rules -/

lemma push_ne_empty (s : String) (c : Char) : s.push c ≠ "" := by
  intro h
  have h2 : (s.push c).data = ("" : String).data := by rw [h]
  simp [String.push] at h2

/-- No action rule ever delivers `documentStart`. -/
lemma runRule_docStart (n : Nat) (c : Char) (ctx : Ctx) :
    Event.documentStart ∉ (runRule n c ctx).1 := by
  unfold runRule do_tag_end
  split <;> (try split_ifs) <;> simp

/-- Every action rule preserves the invariant "in state 10 the text buffer is
non-empty" (the context passed in already carries the newly entered state). -/
lemma runRule_inv (n : Nat) (c : Char) (ctx : Ctx) (hstate : ctx.state = (n : Int)) :
    (runRule n c ctx).2.1.state = 10 → (runRule n c ctx).2.1.text ≠ "" := by
  unfold runRule do_tag_end
  split <;> (try split_ifs) <;> simp_all <;>
    first
      | omega
      | exact push_ne_empty _ _ ‹_›
      | (intro h; first | omega | exact push_ne_empty _ _ h)

/-- The only rule that delivers a `textHandle` event is `do_text_end`
(rule 16), and it delivers exactly the current text buffer. -/
lemma runRule_textHandle (n : Nat) (c : Char) (ctx : Ctx) (s : String)
    (h : Event.textHandle s ∈ (runRule n c ctx).1) : n = 16 ∧ s = ctx.text := by
  unfold runRule do_tag_end at h
  split at h <;> (try split_ifs at h) <;> simp_all

/-! ## Facts about the driver loop -/

/-- The driver loop never delivers `documentStart` (only `parse` itself
does, before the loop starts). -/
lemma parseLoop_docStart (stopOn : Event → Bool) :
    ∀ (input : List Char) (ctx : Ctx),
      Event.documentStart ∉ (parseLoop stopOn ctx input).events := by
  intro input
  induction input with
  | nil => intro ctx; simp [parseLoop]
  | cons c rest ih =>
    intro ctx
    simp only [parseLoop]
    split
    · simp
    · split
      · simp
      · split
        next evs ctx1 e heq =>
          have h1 := runRule_docStart (transKiSAX ctx.state (getSymbolType c)).toNat c
            { ctx with state := transKiSAX ctx.state (getSymbolType c) }
          rw [heq] at h1
          simpa using h1
        next evs ctx1 heq =>
          have h1 := runRule_docStart (transKiSAX ctx.state (getSymbolType c)).toNat c
            { ctx with state := transKiSAX ctx.state (getSymbolType c) }
          rw [heq] at h1
          simp only [List.mem_append, not_or]
          exact ⟨by simpa using h1, ih _⟩

/-- Main invariant behind C10: starting from any context in which state 10
implies a non-empty text buffer, every `textHandle` event the loop delivers
carries a non-empty string. -/
lemma parseLoop_text (stopOn : Event → Bool) :
    ∀ (input : List Char) (ctx : Ctx),
      (ctx.state = 10 → ctx.text ≠ "") →
      ∀ s, Event.textHandle s ∈ (parseLoop stopOn ctx input).events → s ≠ "" := by
  intro input
  induction input with
  | nil => intro ctx _ s hmem; simp [parseLoop] at hmem
  | cons c rest ih =>
    intro ctx hInv s hmem
    simp only [parseLoop] at hmem
    split at hmem
    · simp at hmem
    · split at hmem
      · simp at hmem
      · rename_i hneg
        split at hmem
        next evs ctx1 e heq =>
          simp only at hmem
          have h16 := runRule_textHandle _ c _ s (by rw [heq]; simpa using hmem)
          have hst : ctx.state = 10 := by
            apply trans_eq_16 ctx.state (getSymbolType c)
            omega
          have hs : s = ctx.text := h16.2
          rw [hs]
          exact hInv hst
        next evs ctx1 heq =>
          simp only [List.mem_append] at hmem
          rcases hmem with hmem | hmem
          · have h16 := runRule_textHandle _ c _ s (by rw [heq]; simpa using hmem)
            have hst : ctx.state = 10 := by
              apply trans_eq_16 ctx.state (getSymbolType c)
              omega
            have hs : s = ctx.text := h16.2
            rw [hs]
            exact hInv hst
          · apply ih _ _ s hmem
            intro h10
            have hst : ({ ctx with state := transKiSAX ctx.state (getSymbolType c) } : Ctx).state
                = ((transKiSAX ctx.state (getSymbolType c)).toNat : Int) := by
              simp only
              omega
            have h2 := runRule_inv _ c _ hst
            rw [heq] at h2
            exact h2 h10

/-- One silent iteration of the driver loop: when the stop flag is clear, the
transition leads to a non-error state, and the rule of that state emits no
event and throws nothing, the loop simply continues on the rest of the input
from the rule's output context. -/
lemma parseLoop_step (stopOn : Event → Bool) (ctx ctx' : Ctx) (c : Char)
    (rest : List Char) (hstop : ctx.stop_flag = false) (n : Int)
    (hn : transKiSAX ctx.state (getSymbolType c) = n) (h0 : 0 ≤ n)
    (hr : runRule n.toNat c { ctx with state := n } = ([], ctx', none)) :
    parseLoop stopOn ctx (c :: rest) = parseLoop stopOn ctx' rest := by
  simp only [parseLoop, hn]
  rw [if_neg (by simp [hstop]), if_neg (not_lt.mpr h0), hr]
  simp

/-! ## Facts about the attribute map -/

/-- A key smaller than every key of the collection is absent. -/
lemma lookupA_of_lt (m : List (String × String)) (k : String)
    (h : ∀ p ∈ m, k < p.1) : lookupA m k = none := by
  induction m with
  | nil => rfl
  | cons p rest ih =>
    simp only [lookupA]
    rw [if_neg, ih]
    · intro q hq; exact h q (List.mem_cons_of_mem _ hq)
    · exact (h p (List.mem_cons_self p rest)).ne'

/-- `std::map::insert` semantics on a key-sorted collection: after inserting
`(k, v)`, key `k` maps to its previous value if it was present
(first-write-wins), and to `v` otherwise. -/
lemma lookupA_mapInsert (m : List (String × String)) (k v : String)
    (hs : m.Pairwise (fun a b => a.1 < b.1)) :
    lookupA (mapInsert m k v) k = some ((lookupA m k).getD v) := by
  induction m with
  | nil => simp [mapInsert, lookupA]
  | cons p rest ih =>
    rcases p with ⟨k', v'⟩
    rcases List.pairwise_cons.mp hs with ⟨hhead, htail⟩
    by_cases hlt : k < k'
    · have hne : k' ≠ k := hlt.ne'
      have hnone : lookupA rest k = none := by
        apply lookupA_of_lt
        intro q hq
        exact hlt.trans (hhead q hq)
      simp [mapInsert, lookupA, hlt, hne, hnone]
    · by_cases heq : k = k'
      · simp [mapInsert, lookupA, hlt, heq]
      · have hne : k' ≠ k := fun h => heq h.symm
        simp [mapInsert, lookupA, hlt, heq, hne, ih htail]

end KiSAX

namespace KiSAX

/-! ## Claim theorems -/

/-- C1, counterexample: for the input `<a x="1"><b/>text</a>` the parser does
NOT emit the claimed sequence and does raise an error.  From the initial state
the only legal continuation of the first `<` is `?` (state 1 accepts only
`QUESTION`; the header warns that a document must begin with a definition
tag), so `parse()` throws `Parsing` at the `a`, having delivered only
`documentStart`. -/
theorem c1_counterexample :
    (parseKiSAX stopNone initCtx "<a x=\"1\"><b/>text</a>".toList).err
      = some Err.Parsing ∧
    (parseKiSAX stopNone initCtx "<a x=\"1\"><b/>text</a>".toList).events
      = [Event.documentStart] :=
  ⟨rfl, rfl⟩

/-- C1, amended: with the required definition tag prefixed, the input
`<?d?><a x="1"><b/>text</a>` yields exactly, in order: documentStart;
definitionHandle("d",{}); elementStart("a",{x:"1"}); elementStart("b",{});
elementEnd("b"); textHandle("text"); elementEnd("a"); documentEnd, and raises
no error. -/
theorem c1_amended :
    (parseKiSAX stopNone initCtx "<?d?><a x=\"1\"><b/>text</a>".toList).events
      = [Event.documentStart, Event.definitionHandle "d" [],
         Event.elementStart "a" [("x", "1")], Event.elementStart "b" [],
         Event.elementEnd "b", Event.textHandle "text", Event.elementEnd "a",
         Event.documentEnd] ∧
    (parseKiSAX stopNone initCtx "<?d?><a x=\"1\"><b/>text</a>".toList).err = none :=
  ⟨rfl, rfl⟩

/-- C2, counterexample: on input `<?d?>X` with a sink that calls `stop()`
inside its `definitionHandle` callback, the same `parse()` call still delivers
a further event (`documentEnd`), and the unread character `X` is consumed and
discarded by the loop condition `m_is->get(c) && !m_stop_flag` (the final rest
is `[]`, not `['X']`) — refuting both "no further events fire until parse() is
called again" and "the stop takes effect before the next character is read /
the next parse() continues from the next unread character". -/
theorem c2_counterexample :
    (parseKiSAX stopOnDefinition initCtx "<?d?>X".toList).events
      = [Event.documentStart, Event.definitionHandle "d" [], Event.documentEnd] ∧
    (parseKiSAX stopOnDefinition initCtx "<?d?>X".toList).rest = [] ∧
    (parseKiSAX stopOnDefinition initCtx "<?d?>X".toList).err = none :=
  ⟨rfl, rfl, rfl⟩

/-- C2, amended: once a callback has set the stop flag, the loop performs no
further transition, action, or event, but it first reads and discards one more
character (if one is available) — the loop resumes from `rest`, not from
`c :: rest`; the stopped `parse()` call still ends by delivering
`documentEnd`; and a `parse()` call entered with the stop flag still set never
delivers `documentStart`. -/
theorem c2_amended (stopOn : Event → Bool) (ctx : Ctx) (c : Char) (rest : List Char)
    (h : ctx.stop_flag = true) :
    parseLoop stopOn ctx (c :: rest) = ⟨[], ctx, rest, none⟩ ∧
    Event.documentStart ∉ (parseKiSAX stopOn ctx (c :: rest)).events ∧
    ((parseKiSAX stopOn ctx (c :: rest)).err = none →
      Event.documentEnd ∈ (parseKiSAX stopOn ctx (c :: rest)).events) := by
  refine ⟨by simp [parseLoop, h], ?_, ?_⟩
  · simp only [parseKiSAX, h]
    split <;> simp <;> exact parseLoop_docStart stopOn _ _
  · simp only [parseKiSAX, h]
    split <;> simp

/-- C2, witness for the amended theorem at a concrete stopped context and
input: one character (`X`) is discarded, scanning resumes at `['a','b']`. -/
theorem c2_amended_witness :
    ({ initCtx with stop_flag := true } : Ctx).stop_flag = true ∧
    parseLoop stopNone { initCtx with stop_flag := true } ['X', 'a', 'b']
      = ⟨[], { initCtx with stop_flag := true }, ['a', 'b'], none⟩ :=
  ⟨rfl, (c2_amended stopNone { initCtx with stop_flag := true } 'X' ['a', 'b'] rfl).1⟩

/-- C3: whenever `do_tag_end` (rule 6) runs for an empty-element tag — no-body
flag set, style and closing flags clear, which is the only flag combination a
`<x .../>` tag can reach it with — it emits `elementStart(tag, attrs)`
immediately followed by `elementEnd(tag)` with the identical name, with no
intervening events and no error, then clears the per-tag data and returns to
state 8. -/
theorem c3_selfclosing (c : Char) (ctx : Ctx) (h1 : ctx.is_tag_no_body = true)
    (h2 : ctx.is_style = false) (h3 : ctx.is_closing_tag = false) :
    runRule 6 c ctx
      = ([Event.elementStart ctx.tag ctx.attributes, Event.elementEnd ctx.tag],
         { do_all_clear ctx with state := 8 }, none) := by
  simp [runRule, do_tag_end, h1, h2, h3]

/-- C3, witness: the context reached just before the `>` of `<b/>`. -/
theorem c3_selfclosing_witness :
    c3ctx.is_tag_no_body = true ∧ c3ctx.is_style = false ∧
    c3ctx.is_closing_tag = false ∧
    runRule 6 '>' c3ctx
      = ([Event.elementStart "b" [], Event.elementEnd "b"],
         { do_all_clear c3ctx with state := 8 }, none) :=
  ⟨rfl, rfl, rfl, c3_selfclosing '>' c3ctx rfl rfl rfl⟩

/-- C4: when the scanner reaches `do_tag_end` (a transition into state 6) with
the closing-tag flag set and a non-empty attribute collection, the loop throws
`ClosingTagWithAttributes` and emits no event at all (in particular no
`elementEnd`). -/
theorem c4_closing_with_attributes (stopOn : Event → Bool) (ctx : Ctx) (c : Char)
    (rest : List Char) (h1 : ctx.is_closing_tag = true) (h2 : ctx.is_style = false)
    (h3 : ctx.attributes ≠ []) (h4 : ctx.stop_flag = false)
    (h5 : transKiSAX ctx.state (getSymbolType c) = 6) :
    parseLoop stopOn ctx (c :: rest)
      = ⟨[], { ctx with state := 6 }, rest, some Err.ClosingTagWithAttributes⟩ := by
  rcases hat : ctx.attributes with _ | ⟨p, att⟩
  · exact absurd hat h3
  · simp [parseLoop, h4, h5, runRule, do_tag_end, h1, h2, hat]

/-- C4, witness: the context reached just before the `>` of `</a a="1">`. -/
theorem c4_closing_with_attributes_witness :
    c4ctx.is_closing_tag = true ∧ c4ctx.is_style = false ∧ c4ctx.attributes ≠ [] ∧
    c4ctx.stop_flag = false ∧ transKiSAX c4ctx.state (getSymbolType '>') = 6 ∧
    parseLoop stopNone c4ctx ['>']
      = ⟨[], { c4ctx with state := 6 }, [], some Err.ClosingTagWithAttributes⟩ :=
  ⟨rfl, rfl, by decide, rfl, by decide,
   c4_closing_with_attributes stopNone c4ctx '>' [] rfl rfl (by decide) rfl (by decide)⟩

/-- C5: `do_attribute_store` (rule 15) follows first-write-wins.  On any
key-sorted attribute collection (the `std::map` invariant), after the store
the just-stored name maps to its previous value when the name was already
present, and to the newly stored value otherwise — so within one tag the first
occurrence of a duplicated attribute name is retained and later occurrences
are ignored. -/
theorem c5_duplicate_attribute_first_wins (c : Char) (ctx : Ctx)
    (hs : ctx.attributes.Pairwise (fun a b => a.1 < b.1)) :
    lookupA ((runRule 15 c ctx).2.1.attributes) ctx.attribute_first
      = some ((lookupA ctx.attributes ctx.attribute_first).getD ctx.attribute_second) := by
  have h := lookupA_mapInsert ctx.attributes ctx.attribute_first ctx.attribute_second hs
  simpa [runRule] using h

/-- C5, witness: storing a duplicate `x="2"` over an existing `x="1"` leaves
`x` mapped to `"1"`. -/
theorem c5_duplicate_attribute_first_wins_witness :
    (c5ctx.attributes.Pairwise (fun a b => a.1 < b.1)) ∧
    lookupA ((runRule 15 ' ' c5ctx).2.1.attributes) c5ctx.attribute_first = some "1" :=
  ⟨by simp [c5ctx],
   (c5_duplicate_attribute_first_wins ' ' c5ctx (by simp [c5ctx])).trans (by rfl)⟩

/-- C6: from the comment-body state (21), reading `--` followed by any
character other than `>` makes the scan fail with the `Parsing` error — the
sequence `--` is never legal content inside a comment. -/
theorem c6_comment_double_minus (stopOn : Event → Bool) (ctx : Ctx) (c : Char)
    (rest : List Char) (h1 : ctx.state = 21) (h2 : ctx.stop_flag = false)
    (h3 : c ≠ '>') :
    (parseLoop stopOn ctx ('-' :: '-' :: c :: rest)).err = some Err.Parsing := by
  have hsym : transKiSAX 23 (getSymbolType c) = -1 :=
    trans_row23 _ (fun hh => h3 (getSymbolType_eq_TAG_END c hh))
  rw [parseLoop_step stopOn ctx { ctx with state := 22 } '-' _ h2 22
    (by rw [h1]; decide) (by decide) rfl]
  rw [parseLoop_step stopOn { ctx with state := 22 } { ctx with state := 23 } '-' _ h2 23
    (show transKiSAX 22 (getSymbolType '-') = 23 by decide) (by decide) rfl]
  simp only [parseLoop, hsym]
  rw [if_neg (by simp [h2])]
  simp

/-- C6, witness: `--x` inside a comment body raises `Parsing`. -/
theorem c6_comment_double_minus_witness :
    c6ctx.state = 21 ∧ c6ctx.stop_flag = false ∧ ('x' : Char) ≠ '>' ∧
    (parseLoop stopNone c6ctx ['-', '-', 'x']).err = some Err.Parsing :=
  ⟨rfl, rfl, by decide, c6_comment_double_minus stopNone c6ctx 'x' [] rfl rfl (by decide)⟩

/-- C7, code-bug evaluation: for the comment `<!--a-b-->` — body `a-b`, which
contains no `--` substring and scans without error — `commentHandle` receives
`"a-"`, not the body `"a-b"`: `do_comment_minus_mark` (rule 24) appends only
the pending `-` and jumps back to state 21, silently dropping the already
consumed character that followed the lone `-`. -/
theorem c7_comment_char_dropped :
    (parseKiSAX stopNone initCtx "<?d?><!--a-b-->".toList).events
      = [Event.documentStart, Event.definitionHandle "d" [],
         Event.commentHandle "a-", Event.documentEnd] ∧
    (parseKiSAX stopNone initCtx "<?d?><!--a-b-->".toList).err = none :=
  ⟨rfl, rfl⟩

/-- C8, code-bug evaluation: `reset()` from the mid-comment context left by
scanning `<?d?><!--ab` resets the state to 0, clears all four flags, the
text/tag buffers, the attribute buffers and the attribute collection — but the
comment buffer still holds `"ab"`, because `do_all_clear` never clears
`m_comment`. -/
theorem c8_reset_keeps_comment :
    c8ctx.state = 21 ∧ c8ctx.comment = "ab" ∧
    (reset c8ctx).comment = "ab" ∧ ¬ (reset c8ctx).comment = "" ∧
    (reset c8ctx).state = 0 ∧ (reset c8ctx).text = "" ∧ (reset c8ctx).tag = "" ∧
    (reset c8ctx).attributes = [] ∧ (reset c8ctx).attribute_first = "" ∧
    (reset c8ctx).attribute_second = "" ∧ (reset c8ctx).is_style = false ∧
    (reset c8ctx).is_closing_tag = false ∧ (reset c8ctx).is_tag_no_body = false ∧
    (reset c8ctx).stop_flag = false := by
  refine ⟨rfl, rfl, rfl, ?_, rfl, rfl, rfl, rfl, rfl, rfl, rfl, rfl, rfl, rfl⟩
  decide

/-- C9: calling `stop()` outside a running `parse()` (modelled as entering
`parse()` with the stop flag already set) makes the next `parse()` call skip
`documentStart` — it never appears among the delivered events — while the flag
is cleared on entry, so the scan itself proceeds exactly as it would have with
a clear flag: same final context, same remaining input, same error, and the
same events except for the missing leading `documentStart`. -/
theorem c9_stop_skips_documentStart (stopOn : Event → Bool) (ctx : Ctx)
    (input : List Char) (h : ctx.stop_flag = true) :
    (parseKiSAX stopOn { ctx with stop_flag := false } input).events
      = Event.documentStart :: (parseKiSAX stopOn ctx input).events ∧
    Event.documentStart ∉ (parseKiSAX stopOn ctx input).events ∧
    (parseKiSAX stopOn ctx input).ctx
      = (parseKiSAX stopOn { ctx with stop_flag := false } input).ctx ∧
    (parseKiSAX stopOn ctx input).rest
      = (parseKiSAX stopOn { ctx with stop_flag := false } input).rest ∧
    (parseKiSAX stopOn ctx input).err
      = (parseKiSAX stopOn { ctx with stop_flag := false } input).err := by
  refine ⟨?_, ?_, ?_, ?_, ?_⟩ <;> simp only [parseKiSAX, h] <;> split <;> simp <;>
    exact parseLoop_docStart stopOn _ _

/-- C9, witness: a fresh bound parser on which `stop()` was called before the
very first `parse()` — `documentStart` is not delivered. -/
theorem c9_stop_skips_documentStart_witness :
    ({ initCtx with stop_flag := true } : Ctx).stop_flag = true ∧
    Event.documentStart ∉
      (parseKiSAX stopNone { initCtx with stop_flag := true } "<?d?>".toList).events :=
  ⟨rfl, (c9_stop_skips_documentStart stopNone { initCtx with stop_flag := true }
      "<?d?>".toList rfl).2.1⟩

/-- C10: `textHandle` is never invoked with an empty string.  For every sink,
every starting context satisfying the reachable-state invariant "in the
text-reading state 10 the text buffer is non-empty" (the fresh context
trivially does), and every input, each `textHandle` event delivered by
`parse()` carries a non-empty string: state 10 is only entered by appending a
character to the text buffer, and state 16 (which flushes the buffer) is
reachable only from state 10. -/
theorem c10_textHandle_nonempty (stopOn : Event → Bool) (ctx : Ctx)
    (input : List Char) (hInv : ctx.state = 10 → ctx.text ≠ "") (s : String)
    (hmem : Event.textHandle s ∈ (parseKiSAX stopOn ctx input).events) : s ≠ "" := by
  simp only [parseKiSAX] at hmem
  split at hmem
  · simp only [List.mem_append] at hmem
    rcases hmem with hmem | hmem
    · exfalso; split at hmem <;> simp at hmem
    · exact parseLoop_text stopOn input { ctx with stop_flag := false } hInv s hmem
  · simp only [List.mem_append] at hmem
    rcases hmem with (hmem | hmem) | hmem
    · exfalso; split at hmem <;> simp at hmem
    · exact parseLoop_text stopOn input { ctx with stop_flag := false } hInv s hmem
    · simp at hmem

/-- C10, witness: the input `<?d?>t<` makes the parser flush the text `"t"`,
which the theorem certifies to be non-empty. -/
theorem c10_textHandle_nonempty_witness :
    (initCtx.state = 10 → initCtx.text ≠ "") ∧
    Event.textHandle "t" ∈ (parseKiSAX stopNone initCtx "<?d?>t<".toList).events ∧
    "t" ≠ "" :=
  ⟨by decide, by decide,
   c10_textHandle_nonempty stopNone initCtx "<?d?>t<".toList (by decide) "t" (by decide)⟩

end KiSAX
